import Mathlib

/-!
Shallow embedding of the BDO pneumatic pump controller firmware
(fill-control subsystem) and verification of its specification claims.

Floats of the C source are modelled as rationals (`ℚ`), microsecond
timestamps as naturals (`ℕ`).  Each C function is translated to a pure
Lean function; the mutable globals (`g_system_state`, `s_pid`,
`s_autotune`, function statics) become explicit arguments and results.
-/

namespace BDO

/-- Fill state machine enum, `system_state_enum_t` of include/system_state.h. -/
inductive system_state_enum_t
  | STATE_IDLE
  | STATE_SAFETY_CHECK
  | STATE_FILLING
  | STATE_COMPLETED
  | STATE_ERROR
  | STATE_CANCELLED
  deriving DecidableEq, Repr

/-- Fill zone enum, `fill_zone_t` of include/system_state.h. -/
inductive fill_zone_t
  | ZONE_IDLE
  | ZONE_FAST
  | ZONE_MODERATE
  | ZONE_SLOW
  | ZONE_FINE
  deriving DecidableEq, Repr

/-- Safety sequencer enum, `safety_state_t` of include/system_state.h. -/
inductive safety_state_t
  | SAFETY_IDLE
  | SAFETY_AIR_CHECK
  | SAFETY_HOSE_CHECK
  | SAFETY_POSITION_CHECK
  | SAFETY_START_CHECK
  | SAFETY_COMPLETE
  | SAFETY_TIMEOUT
  | SAFETY_CANCELLED
  deriving DecidableEq, Repr

/-- Error codes, `error_code_t` of include/system_state.h.
`ERROR_AUTOTUNE_TIMEOUT` is referenced by pressure_controller.c but its
declaration is outside the available sources; modelled from the spec
error taxonomy (AutotuneTimeout). -/
inductive error_code_t
  | ERROR_NONE
  | ERROR_SCALE_OFFLINE
  | ERROR_SCALE_TIMEOUT
  | ERROR_WEIGHT_STUCK
  | ERROR_PRESSURE_FAULT
  | ERROR_SAFETY_TIMEOUT
  | ERROR_OVERFILL
  | ERROR_WIFI_DISCONNECTED
  | ERROR_AUTOTUNE_TIMEOUT
  deriving DecidableEq, Repr

/-- Modelled from the spec: the autotune phase enum (values
`AUTOTUNE_IDLE` .. `AUTOTUNE_CANCELLED` are referenced by
pressure_controller.c but declared outside the available sources; the
spec lists the phases Idle, Init, Settling, RelayTest, Calculating,
Complete, Timeout, Cancelled). -/
inductive autotune_phase_t
  | AUTOTUNE_IDLE
  | AUTOTUNE_INIT
  | AUTOTUNE_SETTLING
  | AUTOTUNE_RELAY_TEST
  | AUTOTUNE_CALCULATING
  | AUTOTUNE_COMPLETE
  | AUTOTUNE_TIMEOUT
  | AUTOTUNE_CANCELLED
  deriving DecidableEq, Repr

/-- Return codes of the ESP-IDF style functions (only the three values
the modelled code produces). -/
inductive esp_err_t
  | ESP_OK
  | ESP_FAIL
  | ESP_ERR_INVALID_STATE
  deriving DecidableEq, Repr

/-! Configuration constants from include/config.h. -/

def ZONE_FAST_END : ℚ := 60
def ZONE_MODERATE_END : ℚ := 85
def ZONE_SLOW_END : ℚ := 97.5
def ZONE_FINE_END : ℚ := 100

def PRESSURE_FAST : ℚ := 33
def PRESSURE_MODERATE : ℚ := 66
def PRESSURE_SLOW : ℚ := 100
def PRESSURE_FINE : ℚ := 83

def PID_RANGE_FAST : ℚ := 8
def PID_RANGE_MODERATE : ℚ := 16
def PID_RANGE_SLOW : ℚ := 13
def PID_RANGE_FINE : ℚ := 16

def PID_GAIN_MULT_FAST : ℚ := 1.5
def PID_GAIN_MULT_MODERATE : ℚ := 1
def PID_GAIN_MULT_SLOW : ℚ := 0.7
def PID_GAIN_MULT_FINE : ℚ := 0.4

def DEFAULT_TARGET_WEIGHT_LBS : ℚ := 200
def MIN_TARGET_WEIGHT_LBS : ℚ := 10
def MAX_TARGET_WEIGHT_LBS : ℚ := 250
def WEIGHT_INCREMENT_LBS : ℚ := 5

def DEFAULT_PID_KP : ℚ := 2.5
def DEFAULT_PID_KI : ℚ := 0.5
def DEFAULT_PID_KD : ℚ := 0.1

def PID_OUTPUT_MIN : ℚ := 0
def PID_OUTPUT_MAX : ℚ := 100
def PID_INTEGRAL_MIN : ℚ := -50
def PID_INTEGRAL_MAX : ℚ := 50

def AUTOTUNE_TARGET_WEIGHT : ℚ := 50
def AUTOTUNE_TIMEOUT_MS : ℕ := 120000
def AUTOTUNE_MIN_OSCILLATIONS : ℕ := 3
def AUTOTUNE_STEP_PERCENT : ℚ := 20

def SAFETY_CHECK_TIMEOUT_MS : ℕ := 30000
def DAC_MAX_VALUE : ℕ := 255
def CONTROL_LOOP_INTERVAL_MS : ℕ := 100

/-- Global system state, `system_state_t` of include/system_state.h.
The display-menu bookkeeping fields (`menu_page`, `menu_item`,
`menu_active`, `last_interaction_ms`) and the runtime-average statistics
are carried by no modelled operation and are omitted.  The fields from
`pid_enabled` on are referenced by the sources (main.c,
pressure_controller.c) but declared outside the available sources;
modelled from the spec (§3 FillState / PidParams / AutotuneState). -/
structure system_state_t where
  state : system_state_enum_t
  safety_state : safety_state_t
  active_zone : fill_zone_t
  error : error_code_t
  target_weight_lbs : ℚ
  current_weight_lbs : ℚ
  start_weight_lbs : ℚ
  actual_dispensed_lbs : ℚ
  pressure_setpoint_pct : ℚ
  fill_number : ℕ
  fills_today : ℕ
  total_lbs_today : ℚ
  fill_start_time_ms : ℕ
  fill_elapsed_ms : ℕ
  zone_transitions : ℕ
  scale_online : Bool
  mqtt_connected : Bool
  wifi_connected : Bool
  itv_feedback_active : Bool
  uptime_seconds : ℕ
  pid_enabled : Bool
  pid_tuned : Bool
  pid_kp : ℚ
  pid_ki : ℚ
  pid_kd : ℚ
  autotune_state : autotune_phase_t
  autotune_kp : ℚ
  autotune_ki : ℚ
  autotune_kd : ℚ
  deriving DecidableEq, Repr

/-- Initial value of `g_system_state` (main.c, designated initializer;
remaining fields C-zero-initialized). -/
def g_system_state_init : system_state_t where
  state := .STATE_IDLE
  safety_state := .SAFETY_IDLE
  active_zone := .ZONE_IDLE
  error := .ERROR_NONE
  target_weight_lbs := 200
  current_weight_lbs := 0
  start_weight_lbs := 0
  actual_dispensed_lbs := 0
  pressure_setpoint_pct := 0
  fill_number := 0
  fills_today := 0
  total_lbs_today := 0
  fill_start_time_ms := 0
  fill_elapsed_ms := 0
  zone_transitions := 0
  scale_online := false
  mqtt_connected := false
  wifi_connected := false
  itv_feedback_active := false
  uptime_seconds := 0
  pid_enabled := false
  pid_tuned := false
  pid_kp := 0
  pid_ki := 0
  pid_kd := 0
  autotune_state := .AUTOTUNE_IDLE
  autotune_kp := 0
  autotune_ki := 0
  autotune_kd := 0

/-- PID engine state, `pid_state_t` of pressure_controller.c. -/
structure pid_state_t where
  kp : ℚ
  ki : ℚ
  kd : ℚ
  integral : ℚ
  prev_error : ℚ
  prev_measurement : ℚ
  last_time_us : ℕ
  output_percent : ℚ
  deriving DecidableEq, Repr

/-- Embedding of `set_dac_output` of pressure_controller.c: clamps the percentage to
[0, 100], drives the DAC, and records the commanded percent in
`s_pid.output_percent` (the DAC write is modelled as always
succeeding). -/
def set_dac_output (s : pid_state_t) (percent : ℚ) : pid_state_t :=
  let percent := if percent < 0 then 0 else percent
  let percent := if percent > 100 then 100 else percent
  { s with output_percent := percent }

/-- The 8-bit value written to the DAC for a (pre-clamped) percentage,
`(uint8_t)((percent / 100.0f) * DAC_MAX_VALUE)` of pressure_controller.c. -/
def dac_value (percent : ℚ) : ℕ :=
  (⌊percent / 100 * (DAC_MAX_VALUE : ℚ)⌋).toNat

/-- Embedding of `pressure_controller_set_percent` of pressure_controller.c. -/
def pressure_controller_set_percent (s : pid_state_t) (percent : ℚ) : pid_state_t :=
  set_dac_output s percent

/-- Embedding of `pressure_controller_reset_pid` of pressure_controller.c. -/
def pressure_controller_reset_pid (s : pid_state_t) (now_us : ℕ) : pid_state_t :=
  { s with integral := 0, prev_error := 0, prev_measurement := 0, last_time_us := now_us }

/-- Embedding of `pressure_controller_compute_pid` of pressure_controller.c.
Returns the updated engine state and the computed output. -/
def pressure_controller_compute_pid (s : pid_state_t) (now_us : ℕ)
    (setpoint measurement : ℚ) : pid_state_t × ℚ :=
  let dt : ℚ := ((now_us - s.last_time_us : ℕ) : ℚ) / 1000000
  if dt ≤ 0 ∨ dt > 1 then
    ({ s with last_time_us := now_us, prev_measurement := measurement }, s.output_percent)
  else
    let error := setpoint - measurement
    let p_term := s.kp * error
    let integral := s.integral + error * dt
    let integral :=
      if integral > PID_INTEGRAL_MAX then PID_INTEGRAL_MAX
      else if integral < PID_INTEGRAL_MIN then PID_INTEGRAL_MIN
      else integral
    let i_term := s.ki * integral
    let derivative := (measurement - s.prev_measurement) / dt
    let d_term := -s.kd * derivative
    let output := p_term + i_term + d_term
    let output :=
      if output < PID_OUTPUT_MIN then PID_OUTPUT_MIN
      else if output > PID_OUTPUT_MAX then PID_OUTPUT_MAX
      else output
    ({ s with prev_error := error, prev_measurement := measurement,
              last_time_us := now_us, integral := integral, output_percent := output },
     output)

/-- Embedding of `get_zone_gain_multiplier` of pressure_controller.c. -/
def get_zone_gain_multiplier : fill_zone_t → ℚ
  | .ZONE_FAST => PID_GAIN_MULT_FAST
  | .ZONE_MODERATE => PID_GAIN_MULT_MODERATE
  | .ZONE_SLOW => PID_GAIN_MULT_SLOW
  | .ZONE_FINE => PID_GAIN_MULT_FINE
  | _ => 1

/-- Embedding of `get_zone_pid_range` of pressure_controller.c. -/
def get_zone_pid_range : fill_zone_t → ℚ
  | .ZONE_FAST => PID_RANGE_FAST
  | .ZONE_MODERATE => PID_RANGE_MODERATE
  | .ZONE_SLOW => PID_RANGE_SLOW
  | .ZONE_FINE => PID_RANGE_FINE
  | _ => 10

/-- Embedding of `pressure_controller_set_hybrid` of pressure_controller.c.  The
zone is read from `g_system_state.active_zone`; here it is passed as an
argument. -/
def pressure_controller_set_hybrid (s : pid_state_t) (zone : fill_zone_t)
    (now_us : ℕ) (zone_setpoint current_pressure : ℚ) : pid_state_t :=
  let gain_mult := get_zone_gain_multiplier zone
  let temp_kp := s.kp * gain_mult
  let temp_ki := s.ki * gain_mult
  let temp_kd := s.kd * gain_mult
  let error := zone_setpoint - current_pressure
  let dt : ℚ := ((now_us - s.last_time_us : ℕ) : ℚ) / 1000000
  if dt ≤ 0 ∨ dt > 1 then
    set_dac_output { s with last_time_us := now_us, prev_measurement := current_pressure }
      zone_setpoint
  else
    let p_term := temp_kp * error
    let integral := s.integral + error * dt
    let zone_range := get_zone_pid_range zone
    let integral_limit := zone_range / (temp_ki + 0.001)
    let integral :=
      if integral > integral_limit then integral_limit
      else if integral < -integral_limit then -integral_limit
      else integral
    let i_term := temp_ki * integral
    let derivative := (current_pressure - s.prev_measurement) / dt
    let d_term := -temp_kd * derivative
    let pid_adjustment := p_term + i_term + d_term
    let pid_adjustment :=
      if pid_adjustment > zone_range then zone_range
      else if pid_adjustment < -zone_range then -zone_range
      else pid_adjustment
    let output := zone_setpoint + pid_adjustment
    let output :=
      if output < PID_OUTPUT_MIN then PID_OUTPUT_MIN
      else if output > PID_OUTPUT_MAX then PID_OUTPUT_MAX
      else output
    set_dac_output
      { s with integral := integral, prev_measurement := current_pressure,
               last_time_us := now_us, output_percent := output }
      output

/-- Autotune engine state, `autotune_state_t` of pressure_controller.c.
The parallel arrays `peak_times[10]` / `peak_values[10]` with
`peak_count` are modelled as lists grown at the end (the code appends at
index `peak_count` and increments it, never exceeding 10 entries). -/
structure autotune_state_t where
  active : Bool
  start_time_us : ℕ
  peak_times : List ℚ
  peak_values : List ℚ
  relay_state : Bool
  last_weight : ℚ
  relay_output_high : ℚ
  relay_output_low : ℚ
  ultimate_gain : ℚ
  ultimate_period : ℚ
  calculated_kp : ℚ
  calculated_ki : ℚ
  calculated_kd : ℚ
  deriving DecidableEq, Repr

/-- The `peak_count` field of `autotune_state_t` (always the number of
stored peaks). -/
def peak_count (a : autotune_state_t) : ℕ := a.peak_times.length

/-- Embedding of `pressure_controller_start_autotune` of pressure_controller.c.  The
constant `AUTOTUNE_PRESSURE_CENTER` is referenced there but declared
outside the available sources; modelled from the spec as a parameter
`center` (§4.8: the relay writes `center ± step`). -/
def pressure_controller_start_autotune (center : ℚ) (pid : pid_state_t)
    (sys : system_state_t) (now_us : ℕ) :
    autotune_state_t × pid_state_t × system_state_t :=
  let a : autotune_state_t :=
    { active := true
      start_time_us := now_us
      peak_times := []
      peak_values := []
      relay_state := true
      last_weight := 0
      relay_output_high := center + AUTOTUNE_STEP_PERCENT
      relay_output_low := center - AUTOTUNE_STEP_PERCENT
      ultimate_gain := 0
      ultimate_period := 0
      calculated_kp := 0
      calculated_ki := 0
      calculated_kd := 0 }
  (a, pressure_controller_reset_pid pid now_us,
   { sys with autotune_state := .AUTOTUNE_INIT })

/-- Embedding of `pressure_controller_cancel_autotune` of pressure_controller.c. -/
def pressure_controller_cancel_autotune (a : autotune_state_t) (pid : pid_state_t)
    (sys : system_state_t) : autotune_state_t × pid_state_t × system_state_t :=
  ({ a with active := false }, set_dac_output pid 0,
   { sys with autotune_state := .AUTOTUNE_CANCELLED })

/-- Embedding of `detect_peak` of pressure_controller.c.  The function-static
`prev_prev_weight` is threaded explicitly; the result carries its new
value and whether a peak was stored. -/
def detect_peak (a : autotune_state_t) (prev_prev_weight current_weight : ℚ)
    (now_us : ℕ) : autotune_state_t × ℚ × Bool :=
  if a.last_weight > current_weight ∧ a.last_weight > prev_prev_weight then
    if a.peak_times.length < 10 then
      ({ a with
           peak_times := a.peak_times ++ [(now_us : ℚ) / 1000000],
           peak_values := a.peak_values ++ [a.last_weight],
           last_weight := current_weight },
       a.last_weight, true)
    else
      ({ a with last_weight := current_weight }, a.last_weight, false)
  else
    ({ a with last_weight := current_weight }, a.last_weight, false)

/-- The accumulation loop of `calculate_pid_params`: sum of consecutive
peak-time differences (`total_period`). -/
def total_period_of : List ℚ → ℚ
  | t1 :: t2 :: rest => (t2 - t1) + total_period_of (t2 :: rest)
  | _ => 0

/-- The amplitude loop of `calculate_pid_params`: running maximum
(starting from 0) of `|value[i+1] - value[i]|`. -/
def max_amplitude_of : List ℚ → ℚ
  | v1 :: v2 :: rest => max |v2 - v1| (max_amplitude_of (v2 :: rest))
  | _ => 0

/-- Embedding of `calculate_pid_params` of pressure_controller.c.  The float constant
`M_PI` is modelled as the parameter `piv`. -/
def calculate_pid_params (piv : ℚ) (a : autotune_state_t) (sys : system_state_t) :
    autotune_state_t × system_state_t :=
  if peak_count a < AUTOTUNE_MIN_OSCILLATIONS + 1 then
    (a, { sys with autotune_state := .AUTOTUNE_TIMEOUT })
  else
    let ultimate_period := total_period_of a.peak_times / ((peak_count a : ℚ) - 1)
    let max_amplitude := max_amplitude_of a.peak_values
    let relay_amplitude := AUTOTUNE_STEP_PERCENT
    let ultimate_gain := 4 * relay_amplitude / (piv * max_amplitude)
    let calculated_kp := 0.6 * ultimate_gain
    let calculated_ki := 1.2 * ultimate_gain / ultimate_period
    let calculated_kd := 0.075 * ultimate_gain * ultimate_period
    ({ a with ultimate_period := ultimate_period, ultimate_gain := ultimate_gain,
              calculated_kp := calculated_kp, calculated_ki := calculated_ki,
              calculated_kd := calculated_kd },
     { sys with autotune_kp := calculated_kp, autotune_ki := calculated_ki,
                autotune_kd := calculated_kd, autotune_state := .AUTOTUNE_COMPLETE })

/-- Embedding of `pressure_controller_run_autotune` of pressure_controller.c.  The
constant `AUTOTUNE_WEIGHT_SETPOINT` is referenced there but declared
outside the available sources; modelled from the spec as the parameter
`wsp` (§4.8: the relay oscillates around the autotune weight setpoint,
the mid-point of the test fill).  `piv` models `M_PI` and
`prev_prev_weight` the function-static of `detect_peak`. -/
def pressure_controller_run_autotune (wsp piv : ℚ) (a : autotune_state_t)
    (pid : pid_state_t) (sys : system_state_t) (prev_prev_weight : ℚ)
    (now_us : ℕ) (current_weight : ℚ) :
    autotune_state_t × pid_state_t × system_state_t × ℚ × esp_err_t :=
  if ¬ a.active then
    (a, pid, sys, prev_prev_weight, .ESP_ERR_INVALID_STATE)
  else if (now_us - a.start_time_us) / 1000 > AUTOTUNE_TIMEOUT_MS then
    ({ a with active := false }, set_dac_output pid 0,
     { sys with autotune_state := .AUTOTUNE_TIMEOUT, error := .ERROR_AUTOTUNE_TIMEOUT },
     prev_prev_weight, .ESP_FAIL)
  else
    match sys.autotune_state with
    | .AUTOTUNE_INIT =>
        ({ a with last_weight := current_weight },
         set_dac_output pid a.relay_output_high,
         { sys with autotune_state := .AUTOTUNE_SETTLING,
                    target_weight_lbs := AUTOTUNE_TARGET_WEIGHT },
         prev_prev_weight, .ESP_ERR_INVALID_STATE)
    | .AUTOTUNE_SETTLING =>
        if current_weight > 5 then
          (a, pid, { sys with autotune_state := .AUTOTUNE_RELAY_TEST },
           prev_prev_weight, .ESP_ERR_INVALID_STATE)
        else
          (a, pid, sys, prev_prev_weight, .ESP_ERR_INVALID_STATE)
    | .AUTOTUNE_RELAY_TEST =>
        let dp := detect_peak a prev_prev_weight current_weight now_us
        let a1 := dp.1
        let pp1 := dp.2.1
        let error := wsp - current_weight
        let rl :=
          if error > 0 ∧ ¬ a1.relay_state then
            ({ a1 with relay_state := true }, set_dac_output pid a1.relay_output_high)
          else if error < 0 ∧ a1.relay_state then
            ({ a1 with relay_state := false }, set_dac_output pid a1.relay_output_low)
          else (a1, pid)
        let a2 := rl.1
        let pid2 := rl.2
        if peak_count a2 ≥ AUTOTUNE_MIN_OSCILLATIONS + 1 ∨
            current_weight ≥ AUTOTUNE_TARGET_WEIGHT then
          (a2, set_dac_output pid2 0,
           { sys with autotune_state := .AUTOTUNE_CALCULATING },
           pp1, .ESP_ERR_INVALID_STATE)
        else
          (a2, pid2, sys, pp1, .ESP_ERR_INVALID_STATE)
    | .AUTOTUNE_CALCULATING =>
        let cr := calculate_pid_params piv a sys
        let a2 := { cr.1 with active := false }
        if cr.2.autotune_state = .AUTOTUNE_COMPLETE then
          (a2, pid, cr.2, prev_prev_weight, .ESP_OK)
        else
          (a2, pid, cr.2, prev_prev_weight, .ESP_FAIL)
    | _ => (a, pid, sys, prev_prev_weight, .ESP_ERR_INVALID_STATE)

/-- The function-static locals `prev_weight` / `prev_time_us` of
`control_task_fill_logic` (main.c). -/
structure fill_logic_locals where
  prev_weight : ℚ
  prev_time_us : ℕ
  deriving DecidableEq, Repr

/-- The JSON record built by `mqtt_publish_fill_complete`
(mqtt_client_app.c); only the numeric payload fields are modelled. -/
structure fill_complete_msg where
  fill_number : ℕ
  target_weight_lbs : ℚ
  actual_weight_lbs : ℚ
  fill_time_ms : ℕ
  error_lbs : ℚ
  deriving DecidableEq, Repr

/-- Embedding of `mqtt_publish_fill_complete` of mqtt_client_app.c: the published
record as a function of the global state at the time of the call
(`actual_weight_lbs` is `g_system_state.current_weight_lbs`). -/
def mqtt_publish_fill_complete (sys : system_state_t) : fill_complete_msg where
  fill_number := sys.fill_number
  target_weight_lbs := sys.target_weight_lbs
  actual_weight_lbs := sys.current_weight_lbs
  fill_time_ms := sys.fill_elapsed_ms
  error_lbs := sys.current_weight_lbs - sys.target_weight_lbs

/-- The code after the zone if-chain of `control_task_fill_logic`
(main.c): zone-transition bookkeeping, then hybrid-PID or simple zone
control. -/
def control_task_fill_zone (sys : system_state_t) (pid : pid_state_t)
    (loc : fill_logic_locals) (now_us : ℕ) (new_zone : fill_zone_t)
    (zone_setpoint : ℚ) : system_state_t × pid_state_t × fill_logic_locals :=
  let tr :=
    if new_zone ≠ sys.active_zone then
      ({ sys with zone_transitions := sys.zone_transitions + 1 },
       if sys.pid_enabled then pressure_controller_reset_pid pid now_us else pid)
    else (sys, pid)
  let sys := { tr.1 with active_zone := new_zone, pressure_setpoint_pct := zone_setpoint }
  let pid := tr.2
  if sys.pid_enabled then
    let dt : ℚ := ((now_us - loc.prev_time_us : ℕ) : ℚ) / 1000000
    if dt > 0.001 ∧ dt < 1 then
      let weight_delta := sys.current_weight_lbs - loc.prev_weight
      let flow_rate := weight_delta / dt
      let target_flow : ℚ :=
        match new_zone with
        | .ZONE_FAST => 3
        | .ZONE_MODERATE => 2
        | .ZONE_SLOW => 1
        | .ZONE_FINE => 0.3
        | _ => 1
      let pr := pressure_controller_compute_pid pid now_us target_flow flow_rate
      let pressure_adjustment := pr.2
      let output := zone_setpoint + (pressure_adjustment - zone_setpoint)
      let output := if output < 0 then 0 else output
      let output := if output > 100 then 100 else output
      (sys, set_dac_output pr.1 output,
       { prev_weight := sys.current_weight_lbs, prev_time_us := now_us })
    else
      (sys, set_dac_output pid zone_setpoint,
       { prev_weight := sys.current_weight_lbs, prev_time_us := now_us })
  else
    (sys, set_dac_output pid zone_setpoint, loc)

/-- Embedding of `control_task_fill_logic` of main.c.  Returns the new global state,
PID state, statics, and the published fill-complete record if the fill
finished on this tick. -/
def control_task_fill_logic (sys : system_state_t) (pid : pid_state_t)
    (loc : fill_logic_locals) (now_us : ℕ) :
    system_state_t × pid_state_t × fill_logic_locals × Option fill_complete_msg :=
  let percent_complete := sys.current_weight_lbs / sys.target_weight_lbs * 100
  if percent_complete < ZONE_FAST_END then
    let r := control_task_fill_zone sys pid loc now_us .ZONE_FAST PRESSURE_FAST
    (r.1, r.2.1, r.2.2, none)
  else if percent_complete < ZONE_MODERATE_END then
    let r := control_task_fill_zone sys pid loc now_us .ZONE_MODERATE PRESSURE_MODERATE
    (r.1, r.2.1, r.2.2, none)
  else if percent_complete < ZONE_SLOW_END then
    let r := control_task_fill_zone sys pid loc now_us .ZONE_SLOW PRESSURE_SLOW
    (r.1, r.2.1, r.2.2, none)
  else if percent_complete < ZONE_FINE_END then
    let r := control_task_fill_zone sys pid loc now_us .ZONE_FINE PRESSURE_FINE
    (r.1, r.2.1, r.2.2, none)
  else
    let sys := { sys with state := .STATE_COMPLETED,
                          fill_number := sys.fill_number + 1,
                          fills_today := sys.fills_today + 1,
                          total_lbs_today := sys.total_lbs_today + sys.current_weight_lbs }
    (sys, set_dac_output pid 0, loc, some (mqtt_publish_fill_complete sys))

/-- One iteration of the `control_task` loop of main.c (the state-machine
switch; the `STATE_COMPLETED` case holds for 2 s and then returns to
idle, modelled as the transition of that tick; `STATE_CANCELLED` has no
case in the source switch and falls to `default: break`). -/
def control_task_tick (wsp piv : ℚ) (sys : system_state_t) (pid : pid_state_t)
    (a : autotune_state_t) (prev_prev_weight : ℚ) (loc : fill_logic_locals)
    (now_us : ℕ) :
    system_state_t × pid_state_t × autotune_state_t × ℚ × fill_logic_locals ×
      Option fill_complete_msg :=
  let sys := { sys with uptime_seconds := now_us / 1000000 }
  match sys.state with
  | .STATE_IDLE =>
      (sys, pressure_controller_set_percent pid 0, a, prev_prev_weight, loc, none)
  | .STATE_SAFETY_CHECK =>
      (sys, pid, a, prev_prev_weight, loc, none)
  | .STATE_FILLING =>
      if a.active then
        let r := pressure_controller_run_autotune wsp piv a pid sys prev_prev_weight
          now_us sys.current_weight_lbs
        match r.2.2.2.2 with
        | .ESP_OK =>
            ({ r.2.2.1 with state := .STATE_IDLE },
             pressure_controller_set_percent r.2.1 0, r.1, r.2.2.2.1, loc, none)
        | .ESP_FAIL =>
            ({ r.2.2.1 with state := .STATE_ERROR },
             pressure_controller_set_percent r.2.1 0, r.1, r.2.2.2.1, loc, none)
        | .ESP_ERR_INVALID_STATE =>
            (r.2.2.1, r.2.1, r.1, r.2.2.2.1, loc, none)
      else
        let r := control_task_fill_logic sys pid loc now_us
        (r.1, r.2.1, a, prev_prev_weight, r.2.2.1, r.2.2.2)
  | .STATE_COMPLETED =>
      ({ sys with state := .STATE_IDLE }, pid, a, prev_prev_weight, loc, none)
  | .STATE_ERROR =>
      (sys, pressure_controller_set_percent pid 0, a, prev_prev_weight, loc, none)
  | .STATE_CANCELLED =>
      (sys, pid, a, prev_prev_weight, loc, none)

/-- Safety-system internal state, `safety_internal_t` of safety_system.c. -/
structure safety_internal_t where
  check_start_time_us : ℕ
  button_last_state : Bool
  waiting_for_release : Bool
  deriving DecidableEq, Repr

/-- Embedding of `button_pressed` of safety_system.c.  `current_state` is the value
`read_button_state()` samples from the GPIO. -/
def button_pressed (s : safety_internal_t) (current_state : Bool) :
    safety_internal_t × Bool :=
  let pressed := current_state && !s.button_last_state && !s.waiting_for_release
  let s := if pressed then { s with waiting_for_release := true } else s
  let s := if !current_state && s.waiting_for_release then
      { s with waiting_for_release := false } else s
  ({ s with button_last_state := current_state }, pressed)

/-- Embedding of `check_timeout` of safety_system.c. -/
def check_timeout (s : safety_internal_t) (now_us : ℕ) : Bool :=
  (now_us - s.check_start_time_us) / 1000 > SAFETY_CHECK_TIMEOUT_MS

/-- Embedding of `start_check_stage` of safety_system.c. -/
def start_check_stage (sys : system_state_t) (s : safety_internal_t) (now_us : ℕ)
    (new_state : safety_state_t) : system_state_t × safety_internal_t :=
  ({ sys with safety_state := new_state },
   { s with check_start_time_us := now_us, waiting_for_release := true })

/-- The range test `safety_state >= SAFETY_AIR_CHECK && safety_state <=
SAFETY_START_CHECK` of safety_system.c (enum-order comparison). -/
def safety_stage_active : safety_state_t → Bool
  | .SAFETY_AIR_CHECK | .SAFETY_HOSE_CHECK | .SAFETY_POSITION_CHECK
  | .SAFETY_START_CHECK => true
  | _ => false

/-- Embedding of `safety_run_checks` of safety_system.c. -/
def safety_run_checks (sys : system_state_t) (s : safety_internal_t) (now_us : ℕ)
    (button_level : Bool) : system_state_t × safety_internal_t × esp_err_t :=
  if safety_stage_active sys.safety_state ∧ check_timeout s now_us then
    ({ sys with safety_state := .SAFETY_TIMEOUT, error := .ERROR_SAFETY_TIMEOUT },
     s, .ESP_FAIL)
  else
    match sys.safety_state with
    | .SAFETY_IDLE =>
        let r := start_check_stage sys s now_us .SAFETY_AIR_CHECK
        (r.1, r.2, .ESP_ERR_INVALID_STATE)
    | .SAFETY_AIR_CHECK =>
        let b := button_pressed s button_level
        if b.2 then
          let r := start_check_stage sys b.1 now_us .SAFETY_HOSE_CHECK
          (r.1, r.2, .ESP_ERR_INVALID_STATE)
        else (sys, b.1, .ESP_ERR_INVALID_STATE)
    | .SAFETY_HOSE_CHECK =>
        let b := button_pressed s button_level
        if b.2 then
          let r := start_check_stage sys b.1 now_us .SAFETY_POSITION_CHECK
          (r.1, r.2, .ESP_ERR_INVALID_STATE)
        else (sys, b.1, .ESP_ERR_INVALID_STATE)
    | .SAFETY_POSITION_CHECK =>
        let b := button_pressed s button_level
        if b.2 then
          let r := start_check_stage sys b.1 now_us .SAFETY_START_CHECK
          (r.1, r.2, .ESP_ERR_INVALID_STATE)
        else (sys, b.1, .ESP_ERR_INVALID_STATE)
    | .SAFETY_START_CHECK =>
        let b := button_pressed s button_level
        if b.2 then
          ({ sys with safety_state := .SAFETY_COMPLETE }, b.1, .ESP_OK)
        else (sys, b.1, .ESP_ERR_INVALID_STATE)
    | .SAFETY_COMPLETE => (sys, s, .ESP_OK)
    | .SAFETY_TIMEOUT => (sys, s, .ESP_FAIL)
    | .SAFETY_CANCELLED => (sys, s, .ESP_FAIL)

/-- Embedding of `safety_cancel` of safety_system.c. -/
def safety_cancel (sys : system_state_t) (s : safety_internal_t) :
    system_state_t × safety_internal_t :=
  ({ sys with safety_state := .SAFETY_CANCELLED },
   { s with check_start_time_us := 0 })

/-- Operator events published by the display task (mqtt_publish_event
topics of main.c). -/
inductive mqtt_event_t
  | fill_start
  | safety_check_failed
  deriving DecidableEq, Repr

/-- The safety-sequence branch of one `display_task` loop iteration
(main.c): while in `STATE_SAFETY_CHECK`, run the checks; on success
enter `STATE_FILLING` and record `fill_start_time_ms`; on failure enter
`STATE_CANCELLED`. -/
def display_task_step (sys : system_state_t) (s : safety_internal_t) (now_us : ℕ)
    (button_level : Bool) : system_state_t × safety_internal_t × Option mqtt_event_t :=
  if sys.state = .STATE_SAFETY_CHECK then
    let r := safety_run_checks sys s now_us button_level
    match r.2.2 with
    | .ESP_OK =>
        ({ r.1 with state := .STATE_FILLING, fill_start_time_ms := now_us / 1000 },
         r.2.1, some .fill_start)
    | .ESP_FAIL =>
        ({ r.1 with state := .STATE_CANCELLED }, r.2.1, some .safety_check_failed)
    | .ESP_ERR_INVALID_STATE => (r.1, r.2.1, none)
  else (sys, s, none)

/-- Embedding of `display_handle_encoder` of display_driver.c; `delta` is the value
returned by `encoder_read()`. -/
def display_handle_encoder (sys : system_state_t) (delta : ℤ) : system_state_t :=
  if delta ≠ 0 ∧ sys.state = .STATE_IDLE then
    let new_target := sys.target_weight_lbs + (delta : ℚ) * WEIGHT_INCREMENT_LBS
    let new_target :=
      if new_target < MIN_TARGET_WEIGHT_LBS then MIN_TARGET_WEIGHT_LBS
      else if new_target > MAX_TARGET_WEIGHT_LBS then MAX_TARGET_WEIGHT_LBS
      else new_target
    { sys with target_weight_lbs := new_target }
  else sys

/-- Embedding of `api_start_fill_handler` of webserver.c; the boolean is the
"status: success" of the JSON reply. -/
def api_start_fill_handler (sys : system_state_t) : system_state_t × Bool :=
  if sys.state = .STATE_IDLE then
    ({ sys with state := .STATE_SAFETY_CHECK }, true)
  else (sys, false)

/-- Embedding of `api_stop_fill_handler` of webserver.c. -/
def api_stop_fill_handler (sys : system_state_t) : system_state_t × Bool :=
  if sys.state ≠ .STATE_IDLE then
    ({ sys with state := .STATE_CANCELLED }, true)
  else (sys, false)

/-- Embedding of `api_set_target_handler` of webserver.c; `target` is the parsed
`target` number of the request body (`none` for missing/invalid JSON). -/
def api_set_target_handler (sys : system_state_t) (target : Option ℚ) :
    system_state_t × Bool :=
  match target with
  | some new_target =>
      if 10 ≤ new_target ∧ new_target ≤ 250 then
        ({ sys with target_weight_lbs := new_target }, true)
      else (sys, false)
  | none => (sys, false)

/-- One iteration of the `scale_task` loop of main.c; `reading` is the
result of `scale_read_weight` (`none` on read error). -/
def scale_task_step (sys : system_state_t) (reading : Option ℚ) : system_state_t :=
  match reading with
  | some weight => { sys with current_weight_lbs := weight, scale_online := true }
  | none => { sys with scale_online := false }

/-- Specification-side clamp to an interval. -/
def clamp (lo hi x : ℚ) : ℚ := max lo (min hi x)

/-- Specification-side list of consecutive differences
`value[i+1] - value[i]`. -/
def consecutive_diffs (l : List ℚ) : List ℚ :=
  (l.zip l.tail).map fun p => p.2 - p.1

/-- A call to the PID engine: either the standard compute
(`pressure_controller_compute_pid`) or the hybrid compute
(`pressure_controller_set_hybrid`). -/
inductive pid_call_t where
  | std (now_us : ℕ) (setpoint measurement : ℚ)
  | hyb (zone : fill_zone_t) (now_us : ℕ) (zone_setpoint current_pressure : ℚ)
  deriving DecidableEq, Repr

/-- Effect of one PID-engine call on the engine state. -/
def pid_step (s : pid_state_t) : pid_call_t → pid_state_t
  | .std now_us setpoint measurement =>
      (pressure_controller_compute_pid s now_us setpoint measurement).1
  | .hyb zone now_us zone_setpoint current_pressure =>
      pressure_controller_set_hybrid s zone now_us zone_setpoint current_pressure

/-- Effect of a sequence of PID-engine calls. -/
def pid_run (s : pid_state_t) : List pid_call_t → pid_state_t
  | [] => s
  | c :: rest => pid_run (pid_step s c) rest

/-- Whether a PID-engine call is the standard compute. -/
def is_std_call : pid_call_t → Bool
  | .std _ _ _ => true
  | _ => false

/-! Concrete states used as inputs of the claim theorems. -/

/-- A PID engine state with the default gains, zero history and a last
commanded output of 66 %. -/
def pid0 : pid_state_t :=
  { kp := 2.5, ki := 0.5, kd := 0.1, integral := 0, prev_error := 0,
    prev_measurement := 0, last_time_us := 0, output_percent := 66 }

/-- Zero-initialized fill-logic statics. -/
def loc0 : fill_logic_locals := { prev_weight := 0, prev_time_us := 0 }

/-- A Filling state whose scale reading has jumped to 105 lbs against a
100 lbs target (beyond the 102 lbs overfill threshold). -/
def overfill_sys : system_state_t :=
  { g_system_state_init with
      state := .STATE_FILLING, target_weight_lbs := 100, current_weight_lbs := 105 }

/-- A mid-fill state: Filling, target 100 lbs, weight 50 lbs. -/
def filling_sys : system_state_t :=
  { g_system_state_init with
      state := .STATE_FILLING, target_weight_lbs := 100, current_weight_lbs := 50 }

/-- An inactive autotune engine. -/
def at_inactive : autotune_state_t :=
  { active := false, start_time_us := 0, peak_times := [], peak_values := [],
    relay_state := false, last_weight := 0, relay_output_high := 0,
    relay_output_low := 0, ultimate_gain := 0, ultimate_period := 0,
    calculated_kp := 0, calculated_ki := 0, calculated_kd := 0 }

/-- A Filling state in the Fast zone with the hybrid PID enabled
(target 200 lbs, weight 20 lbs, 10 % progress). -/
def sys3 : system_state_t :=
  { g_system_state_init with
      state := .STATE_FILLING, pid_enabled := true, target_weight_lbs := 200,
      current_weight_lbs := 20, active_zone := .ZONE_FAST }

/-- PID engine state matching `sys3` one tick earlier: flow measurement
settled at 3 lbs/s, timestamps 100 ms before the tick. -/
def pid3 : pid_state_t :=
  { kp := 2.5, ki := 0.5, kd := 0.1, integral := 0, prev_error := 0,
    prev_measurement := 3, last_time_us := 900000, output_percent := 66 }

/-- Fill-logic statics matching `sys3`: previous weight 19.7 lbs at
t = 0.9 s, so the tick at t = 1.0 s sees a flow of 3 lbs/s. -/
def loc3 : fill_logic_locals := { prev_weight := 19.7, prev_time_us := 900000 }

/-- A freshly reset PID engine with the default gains, about to receive
a hybrid call. -/
def pid5 : pid_state_t :=
  { kp := 2.5, ki := 0.5, kd := 0.1, integral := 0, prev_error := 0,
    prev_measurement := 3, last_time_us := 0, output_percent := 0 }

/-- Autotune state holding the four example peaks of the spec:
times 1, 3, 5, 7 s with values 10, 20, 15, 22 lbs. -/
def at6 : autotune_state_t :=
  { active := true, start_time_us := 0, peak_times := [1, 3, 5, 7],
    peak_values := [10, 20, 15, 22], relay_state := true, last_weight := 0,
    relay_output_high := 70, relay_output_low := 30, ultimate_gain := 0,
    ultimate_period := 0, calculated_kp := 0, calculated_ki := 0,
    calculated_kd := 0 }

/-- A SafetyCheck state waiting on the final (StartCheck) confirmation
with 7 lbs already on the scale. -/
def sys9 : system_state_t :=
  { g_system_state_init with
      state := .STATE_SAFETY_CHECK, safety_state := .SAFETY_START_CHECK,
      current_weight_lbs := 7 }

/-- Safety internals for `sys9`: stage started at t = 1 s, button
released and not awaiting release. -/
def saf9 : safety_internal_t :=
  { check_start_time_us := 1000000, button_last_state := false,
    waiting_for_release := false }

/-- A Filling state exactly at 100 % progress (target 100 lbs, weight
100 lbs), about to take the completion branch. -/
def sys10 : system_state_t :=
  { g_system_state_init with
      state := .STATE_FILLING, target_weight_lbs := 100,
      current_weight_lbs := 100, fill_number := 41, fills_today := 2,
      total_lbs_today := 350, fill_elapsed_ms := 77000 }

/-- PID engine state for the `c8` witness: previous call at t = 0, so a
call at t = 2 s sees dt = 2 s > 1 s. -/
def pid8 : pid_state_t :=
  { kp := 2.5, ki := 0.5, kd := 0.1, integral := 7, prev_error := 1,
    prev_measurement := 4, last_time_us := 0, output_percent := 42 }

/-! Helper lemmas. -/

/-- The two-branch clamp of `set_dac_output` agrees with the
specification clamp. -/
theorem set_dac_output_output_percent (s : pid_state_t) (p : ℚ) :
    (set_dac_output s p).output_percent = clamp 0 100 p := by
  simp only [set_dac_output, clamp]
  rcases lt_or_le p 0 with h | h
  · rw [if_pos h, if_neg (by norm_num), min_eq_right (h.le.trans (by norm_num)),
      max_eq_left h.le]
  · rw [if_neg (not_lt.mpr h)]
    rcases lt_or_le (100 : ℚ) p with h2 | h2
    · rw [if_pos h2, min_eq_left h2.le, max_eq_right (by norm_num)]
    · rw [if_neg (not_lt.mpr h2), min_eq_right h2, max_eq_right h]

/-- C4: for every argument `p` of the actuator-write operation
(`pressure_controller_set_percent`, and its internal worker
`set_dac_output` used by all internal callers), the commanded percent
recorded in state equals `clamp(p, 0, 100)`, hence always lies in
[0, 100]. -/
theorem c4_set_percent_clamps (s : pid_state_t) (p : ℚ) :
    (pressure_controller_set_percent s p).output_percent = clamp 0 100 p ∧
    (set_dac_output s p).output_percent = clamp 0 100 p ∧
    0 ≤ (pressure_controller_set_percent s p).output_percent ∧
    (pressure_controller_set_percent s p).output_percent ≤ 100 := by
  have h := set_dac_output_output_percent s p
  refine ⟨h, h, ?_, ?_⟩
  · rw [pressure_controller_set_percent, h]
    exact le_max_left _ _
  · rw [pressure_controller_set_percent, h]
    exact max_le (by norm_num) (min_le_left _ _)

/-- C8: a PID compute call whose elapsed time is invalid (`dt ≤ 0` or
`dt > 1` s) returns the last output unchanged, resets
`prev_measurement` to the current measurement, advances the stored
timestamp to now, and leaves the integral accumulator (and every other
gain/state field) unchanged. -/
theorem c8_pid_invalid_dt (s : pid_state_t) (now_us : ℕ) (setpoint measurement : ℚ)
    (h : ((now_us - s.last_time_us : ℕ) : ℚ) / 1000000 ≤ 0 ∨
         1 < ((now_us - s.last_time_us : ℕ) : ℚ) / 1000000) :
    (pressure_controller_compute_pid s now_us setpoint measurement).2 =
      s.output_percent ∧
    (pressure_controller_compute_pid s now_us setpoint measurement).1 =
      { s with last_time_us := now_us, prev_measurement := measurement } ∧
    (pressure_controller_compute_pid s now_us setpoint measurement).1.integral =
      s.integral ∧
    (pressure_controller_compute_pid s now_us setpoint measurement).1.output_percent =
      s.output_percent := by
  simp only [pressure_controller_compute_pid]
  rw [if_pos h]
  exact ⟨rfl, rfl, rfl, rfl⟩

/-- C8 witness: with the previous call at t = 0 and the next at
t = 2 s, dt = 2 s is invalid and the call is a pure
timestamp/measurement refresh. -/
theorem c8_pid_invalid_dt_witness :
    (1 < ((2000000 - pid8.last_time_us : ℕ) : ℚ) / 1000000) ∧
    ((pressure_controller_compute_pid pid8 2000000 3 1).2 = pid8.output_percent ∧
     (pressure_controller_compute_pid pid8 2000000 3 1).1 =
       { pid8 with last_time_us := 2000000, prev_measurement := 1 } ∧
     (pressure_controller_compute_pid pid8 2000000 3 1).1.integral = pid8.integral ∧
     (pressure_controller_compute_pid pid8 2000000 3 1).1.output_percent =
       pid8.output_percent) :=
  ⟨by norm_num [pid8],
   c8_pid_invalid_dt pid8 2000000 3 1 (Or.inr (by norm_num [pid8]))⟩

/-- C1 (code defect): on a Filling tick with `current_lbs = 105` and
`target_lbs = 100` (past the 1.02 overfill threshold) the fill logic
commands 0 % but transitions to `STATE_COMPLETED` with no error set —
it never raises `ERROR_OVERFILL` nor enters `STATE_ERROR`; the overfill
reading is booked as a successful fill. -/
theorem c1_overfill_not_enforced :
    overfill_sys.state = .STATE_FILLING ∧
    overfill_sys.current_weight_lbs > overfill_sys.target_weight_lbs * 1.02 ∧
    (control_task_fill_logic overfill_sys pid0 loc0 1000000).1.state =
      .STATE_COMPLETED ∧
    (control_task_fill_logic overfill_sys pid0 loc0 1000000).1.error =
      .ERROR_NONE ∧
    (control_task_fill_logic overfill_sys pid0 loc0 1000000).2.1.output_percent = 0 ∧
    (control_task_fill_logic overfill_sys pid0 loc0 1000000).1.fills_today =
      overfill_sys.fills_today + 1 := by
  norm_num [control_task_fill_logic, overfill_sys, g_system_state_init, pid0, loc0,
    ZONE_FAST_END, ZONE_MODERATE_END, ZONE_SLOW_END, ZONE_FINE_END,
    set_dac_output, mqtt_publish_fill_complete]

set_option maxHeartbeats 1000000 in
/-- C2 (code defect): after POST /stop during Filling sets the mode to
`STATE_CANCELLED`, the control task's switch has no case for
`STATE_CANCELLED` (it falls through `default: break`), so no subsequent
control tick ever drives the actuator to 0 % — the last command (66 %
here) persists on every tick; a transition into `STATE_ERROR`, by
contrast, is driven to 0 % on the next tick. -/
theorem c2_cancelled_keeps_actuator_command (wsp piv : ℚ) (now_us : ℕ) :
    (api_stop_fill_handler filling_sys).1.state = .STATE_CANCELLED ∧
    pid0.output_percent = 66 ∧
    (control_task_tick wsp piv (api_stop_fill_handler filling_sys).1 pid0
        at_inactive 0 loc0 now_us).2.1.output_percent = 66 ∧
    (control_task_tick wsp piv (api_stop_fill_handler filling_sys).1 pid0
        at_inactive 0 loc0 now_us).1.state = .STATE_CANCELLED ∧
    (control_task_tick wsp piv { filling_sys with state := .STATE_ERROR } pid0
        at_inactive 0 loc0 now_us).2.1.output_percent = 0 :=
  ⟨rfl, rfl, rfl, rfl, rfl⟩

/-- C3 (code defect): on a hybrid-mode Filling tick in the Fast zone
(base 33 %, PID range ±8) the written command is
`clamp(pid_output, 0, 100)` because the blending expression
`zone_setpoint + (adjustment - zone_setpoint)` cancels the base: at the
failing input the tick writes 0 %, while the claimed form
`clamp(base_pct + a, 0, 100)` with `|a| ≤ pid_range` can never be 0
(it always lies in [25, 41]). -/
theorem c3_fill_tick_ignores_zone_base :
    sys3.state = .STATE_FILLING ∧
    sys3.pid_enabled = true ∧
    (control_task_fill_logic sys3 pid3 loc3 1000000).2.1.output_percent = 0 ∧
    (∀ adjustment : ℚ,
      clamp 0 100
        (PRESSURE_FAST + clamp (-PID_RANGE_FAST) PID_RANGE_FAST adjustment) ≠ 0) := by
  refine ⟨rfl, rfl, ?_, ?_⟩
  · unfold control_task_fill_logic control_task_fill_zone
    norm_num [sys3, pid3, loc3, g_system_state_init, ZONE_FAST_END,
      ZONE_MODERATE_END, ZONE_SLOW_END, ZONE_FINE_END, PRESSURE_FAST,
      pressure_controller_compute_pid, PID_INTEGRAL_MAX, PID_INTEGRAL_MIN,
      PID_OUTPUT_MIN, PID_OUTPUT_MAX, set_dac_output]
  · intro adjustment
    simp only [clamp, PRESSURE_FAST, PID_RANGE_FAST]
    have h1 : (-8 : ℚ) ≤ max (-8) (min 8 adjustment) := le_max_left _ _
    have h2 : (25 : ℚ) ≤ min 100 (33 + max (-8) (min 8 adjustment)) :=
      le_min (by norm_num) (by linarith)
    have h3 : (25 : ℚ) ≤ max 0 (min 100 (33 + max (-8) (min 8 adjustment))) :=
      h2.trans (le_max_right _ _)
    intro heq
    rw [heq] at h3
    norm_num at h3

/-- C5 counterexample: a single hybrid compute call with the default
gains in the Fine zone (error 80, dt = 0.75 s) leaves the integral
accumulator at 60, because the hybrid clamp bound is
`zone_range / (ki_eff + 0.001)` = 16 / 0.201 ≈ 79.6, not I_MAX = 50. -/
theorem c5_counterexample_hybrid_integral :
    (pressure_controller_set_hybrid pid5 .ZONE_FINE 750000 83 3).integral = 60 ∧
    ¬ |(pressure_controller_set_hybrid pid5 .ZONE_FINE 750000 83 3).integral| ≤
        PID_INTEGRAL_MAX := by
  have h : (pressure_controller_set_hybrid pid5 .ZONE_FINE 750000 83 3).integral = 60 := by
    unfold pressure_controller_set_hybrid
    norm_num [pid5, get_zone_gain_multiplier, get_zone_pid_range,
      PID_GAIN_MULT_FINE, PID_RANGE_FINE, PID_OUTPUT_MIN, PID_OUTPUT_MAX,
      set_dac_output]
  refine ⟨h, ?_⟩
  rw [h, PID_INTEGRAL_MAX]
  norm_num

/-- A standard PID compute call always leaves the integral accumulator
within [I_MIN, I_MAX] provided it started there (the invalid-dt branch
keeps it unchanged, the normal branch clamps it). -/
theorem compute_pid_integral_bounded (s : pid_state_t) (now_us : ℕ)
    (setpoint measurement : ℚ) (h : |s.integral| ≤ PID_INTEGRAL_MAX) :
    |(pressure_controller_compute_pid s now_us setpoint measurement).1.integral| ≤
      PID_INTEGRAL_MAX := by
  unfold pressure_controller_compute_pid
  dsimp only
  split
  · simpa using h
  · simp only [PID_INTEGRAL_MAX, PID_INTEGRAL_MIN] at *
    split_ifs with h1 h2
    · simp [abs_le]
    · simp [abs_le]
    · simp only [abs_le] at *
      constructor <;> [linarith [h2]; linarith [h1]]

/-- C5 amended: for every sequence consisting of standard PID compute
calls only, started with the accumulator within bounds, the integral
magnitude never exceeds I_MAX = 50 after each call's clamping step.
(The hybrid compute instead clamps to `zone_range / (ki_eff + 0.001)`,
which can exceed 50 — see the counterexample.) -/
theorem c5_std_pid_integral_invariant (s : pid_state_t) (calls : List pid_call_t)
    (h0 : |s.integral| ≤ PID_INTEGRAL_MAX)
    (hstd : ∀ c ∈ calls, is_std_call c = true) :
    |(pid_run s calls).integral| ≤ PID_INTEGRAL_MAX := by
  induction calls generalizing s with
  | nil => simpa [pid_run] using h0
  | cons c rest ih =>
      have hc := hstd c (List.mem_cons_self c rest)
      cases c with
      | std now_us setpoint measurement =>
          exact ih _ (compute_pid_integral_bounded s now_us setpoint measurement h0)
            fun d hd => hstd d (List.mem_cons_of_mem _ hd)
      | hyb _ _ _ _ => simp [is_std_call] at hc

/-- C5 amended witness: a two-call standard sequence from the default
engine state keeps the integral within I_MAX. -/
theorem c5_std_pid_integral_invariant_witness :
    |pid0.integral| ≤ PID_INTEGRAL_MAX ∧
    |(pid_run pid0 [.std 100000 1 2, .std 200000 3 1]).integral| ≤ PID_INTEGRAL_MAX :=
  ⟨by norm_num [pid0, PID_INTEGRAL_MAX],
   c5_std_pid_integral_invariant pid0 [.std 100000 1 2, .std 200000 3 1]
     (by norm_num [pid0, PID_INTEGRAL_MAX])
     (by intro c hc
         rcases List.mem_cons.mp hc with h | h
         · rw [h]; rfl
         · rcases List.mem_cons.mp h with h2 | h2
           · rw [h2]; rfl
           · simp at h2)⟩

/-- Unfolding lemma for `consecutive_diffs` on two or more elements. -/
theorem consecutive_diffs_cons (a b : ℚ) (l : List ℚ) :
    consecutive_diffs (a :: b :: l) = (b - a) :: consecutive_diffs (b :: l) := by
  simp [consecutive_diffs]

/-- The period-accumulation loop computes the sum of the consecutive
peak-time differences. -/
theorem total_period_eq_sum : ∀ l : List ℚ,
    total_period_of l = (consecutive_diffs l).sum
  | [] => by simp [total_period_of, consecutive_diffs]
  | [t] => by simp [total_period_of, consecutive_diffs]
  | t1 :: t2 :: rest => by
      rw [consecutive_diffs_cons, List.sum_cons, ← total_period_eq_sum (t2 :: rest)]
      simp [total_period_of]

/-- There is one consecutive difference fewer than there are peaks. -/
theorem length_consecutive_diffs (l : List ℚ) :
    (consecutive_diffs l).length = l.length - 1 := by
  simp [consecutive_diffs]

/-- The amplitude loop computes the maximum (from 0) of the absolute
consecutive peak-value differences. -/
theorem max_amplitude_eq_fold : ∀ l : List ℚ,
    max_amplitude_of l = ((consecutive_diffs l).map (fun x => |x|)).foldr max 0
  | [] => by simp [max_amplitude_of, consecutive_diffs]
  | [v] => by simp [max_amplitude_of, consecutive_diffs]
  | v1 :: v2 :: rest => by
      rw [consecutive_diffs_cons]
      simp only [List.map_cons, List.foldr_cons]
      rw [← max_amplitude_eq_fold (v2 :: rest)]
      simp [max_amplitude_of]

/-- C6: with at least MIN_OSCILLATIONS + 1 = 4 recorded peaks, the
Calculating phase yields Pu = mean of the consecutive peak-time
differences, Ku = 4·step / (π·A) with A the maximum absolute
consecutive peak-value difference and step = 20, the classic Z-N gains
Kp = 0.6·Ku, Ki = 1.2·Ku/Pu, Kd = 0.075·Ku·Pu, exposes them in the
global state, and moves the phase to Complete.  `piv` stands for the
float constant `M_PI`. -/
theorem c6_autotune_zn_gains (piv : ℚ) (a : autotune_state_t) (sys : system_state_t)
    (h : AUTOTUNE_MIN_OSCILLATIONS + 1 ≤ peak_count a) :
    (calculate_pid_params piv a sys).1.ultimate_period =
      (consecutive_diffs a.peak_times).sum /
        ((consecutive_diffs a.peak_times).length : ℚ) ∧
    (calculate_pid_params piv a sys).1.ultimate_gain =
      4 * AUTOTUNE_STEP_PERCENT /
        (piv * ((consecutive_diffs a.peak_values).map (fun x => |x|)).foldr max 0) ∧
    (calculate_pid_params piv a sys).1.calculated_kp =
      0.6 * (calculate_pid_params piv a sys).1.ultimate_gain ∧
    (calculate_pid_params piv a sys).1.calculated_ki =
      1.2 * (calculate_pid_params piv a sys).1.ultimate_gain /
        (calculate_pid_params piv a sys).1.ultimate_period ∧
    (calculate_pid_params piv a sys).1.calculated_kd =
      0.075 * (calculate_pid_params piv a sys).1.ultimate_gain *
        (calculate_pid_params piv a sys).1.ultimate_period ∧
    (calculate_pid_params piv a sys).2.autotune_state = .AUTOTUNE_COMPLETE ∧
    (calculate_pid_params piv a sys).2.autotune_kp =
      (calculate_pid_params piv a sys).1.calculated_kp ∧
    (calculate_pid_params piv a sys).2.autotune_ki =
      (calculate_pid_params piv a sys).1.calculated_ki ∧
    (calculate_pid_params piv a sys).2.autotune_kd =
      (calculate_pid_params piv a sys).1.calculated_kd := by
  have hnot : ¬ peak_count a < AUTOTUNE_MIN_OSCILLATIONS + 1 := not_lt.mpr h
  have hlen : 1 ≤ a.peak_times.length := by
    unfold AUTOTUNE_MIN_OSCILLATIONS peak_count at h
    omega
  unfold calculate_pid_params
  rw [if_neg hnot]
  dsimp only
  refine ⟨?_, ?_, rfl, rfl, rfl, rfl, rfl, rfl, rfl⟩
  · rw [total_period_eq_sum, length_consecutive_diffs, Nat.cast_sub hlen, peak_count]
    norm_num
  · rw [max_amplitude_eq_fold]

/-- C6 witness: the spec example — peaks at 1, 3, 5, 7 s with values
10, 20, 15, 22 lbs — satisfies the hypothesis and the conclusion
(there Pu = 2 and A = 10). -/
theorem c6_autotune_zn_gains_witness :
    AUTOTUNE_MIN_OSCILLATIONS + 1 ≤ peak_count at6 ∧
    ((calculate_pid_params (355/113) at6 g_system_state_init).1.ultimate_period =
      (consecutive_diffs at6.peak_times).sum /
        ((consecutive_diffs at6.peak_times).length : ℚ) ∧
    (calculate_pid_params (355/113) at6 g_system_state_init).1.ultimate_gain =
      4 * AUTOTUNE_STEP_PERCENT /
        ((355/113) *
          ((consecutive_diffs at6.peak_values).map (fun x => |x|)).foldr max 0) ∧
    (calculate_pid_params (355/113) at6 g_system_state_init).1.calculated_kp =
      0.6 * (calculate_pid_params (355/113) at6 g_system_state_init).1.ultimate_gain ∧
    (calculate_pid_params (355/113) at6 g_system_state_init).1.calculated_ki =
      1.2 * (calculate_pid_params (355/113) at6 g_system_state_init).1.ultimate_gain /
        (calculate_pid_params (355/113) at6 g_system_state_init).1.ultimate_period ∧
    (calculate_pid_params (355/113) at6 g_system_state_init).1.calculated_kd =
      0.075 * (calculate_pid_params (355/113) at6 g_system_state_init).1.ultimate_gain *
        (calculate_pid_params (355/113) at6 g_system_state_init).1.ultimate_period ∧
    (calculate_pid_params (355/113) at6 g_system_state_init).2.autotune_state =
      .AUTOTUNE_COMPLETE ∧
    (calculate_pid_params (355/113) at6 g_system_state_init).2.autotune_kp =
      (calculate_pid_params (355/113) at6 g_system_state_init).1.calculated_kp ∧
    (calculate_pid_params (355/113) at6 g_system_state_init).2.autotune_ki =
      (calculate_pid_params (355/113) at6 g_system_state_init).1.calculated_ki ∧
    (calculate_pid_params (355/113) at6 g_system_state_init).2.autotune_kd =
      (calculate_pid_params (355/113) at6 g_system_state_init).1.calculated_kd) :=
  ⟨by norm_num [AUTOTUNE_MIN_OSCILLATIONS, peak_count, at6],
   c6_autotune_zn_gains (355/113) at6 g_system_state_init
     (by norm_num [AUTOTUNE_MIN_OSCILLATIONS, peak_count, at6])⟩

/-- The Calculating step never writes `target_weight_lbs`,
`start_weight_lbs` or `actual_dispensed_lbs`. -/
theorem calculate_pid_params_preserves (piv : ℚ) (a : autotune_state_t)
    (sys : system_state_t) :
    (calculate_pid_params piv a sys).2.target_weight_lbs = sys.target_weight_lbs ∧
    (calculate_pid_params piv a sys).2.start_weight_lbs = sys.start_weight_lbs ∧
    (calculate_pid_params piv a sys).2.actual_dispensed_lbs = sys.actual_dispensed_lbs := by
  unfold calculate_pid_params
  split <;> exact ⟨rfl, rfl, rfl⟩

/-- An autotune tick either leaves `target_weight_lbs` unchanged or (in
the Init step) sets it to `AUTOTUNE_TARGET_WEIGHT` = 50. -/
theorem run_autotune_target (wsp piv : ℚ) (a : autotune_state_t) (pid : pid_state_t)
    (sys : system_state_t) (pp : ℚ) (now_us : ℕ) (cw : ℚ) :
    (pressure_controller_run_autotune wsp piv a pid sys pp now_us cw).2.2.1.target_weight_lbs
      = sys.target_weight_lbs ∨
    (pressure_controller_run_autotune wsp piv a pid sys pp now_us cw).2.2.1.target_weight_lbs
      = AUTOTUNE_TARGET_WEIGHT := by
  unfold pressure_controller_run_autotune
  dsimp only
  repeat' split
  all_goals first
    | exact Or.inl rfl
    | exact Or.inr rfl
    | exact Or.inl (calculate_pid_params_preserves piv a sys).1

/-- An autotune tick never writes `start_weight_lbs` or
`actual_dispensed_lbs`. -/
theorem run_autotune_preserves (wsp piv : ℚ) (a : autotune_state_t) (pid : pid_state_t)
    (sys : system_state_t) (pp : ℚ) (now_us : ℕ) (cw : ℚ) :
    (pressure_controller_run_autotune wsp piv a pid sys pp now_us cw).2.2.1.start_weight_lbs
      = sys.start_weight_lbs ∧
    (pressure_controller_run_autotune wsp piv a pid sys pp now_us cw).2.2.1.actual_dispensed_lbs
      = sys.actual_dispensed_lbs := by
  unfold pressure_controller_run_autotune
  dsimp only
  repeat' split
  all_goals first
    | exact ⟨rfl, rfl⟩
    | exact ⟨(calculate_pid_params_preserves piv a sys).2.1,
             (calculate_pid_params_preserves piv a sys).2.2⟩

/-- The zone-control tail of the fill logic never writes
`target_weight_lbs`, `start_weight_lbs` or `actual_dispensed_lbs`. -/
theorem fill_zone_preserves (sys : system_state_t) (pid : pid_state_t)
    (loc : fill_logic_locals) (now_us : ℕ) (z : fill_zone_t) (sp : ℚ) :
    (control_task_fill_zone sys pid loc now_us z sp).1.target_weight_lbs
      = sys.target_weight_lbs ∧
    (control_task_fill_zone sys pid loc now_us z sp).1.start_weight_lbs
      = sys.start_weight_lbs ∧
    (control_task_fill_zone sys pid loc now_us z sp).1.actual_dispensed_lbs
      = sys.actual_dispensed_lbs := by
  unfold control_task_fill_zone
  dsimp only
  repeat' split
  all_goals exact ⟨rfl, rfl, rfl⟩

/-- A fill-logic tick never writes `target_weight_lbs`,
`start_weight_lbs` or `actual_dispensed_lbs`. -/
theorem fill_logic_preserves (sys : system_state_t) (pid : pid_state_t)
    (loc : fill_logic_locals) (now_us : ℕ) :
    (control_task_fill_logic sys pid loc now_us).1.target_weight_lbs
      = sys.target_weight_lbs ∧
    (control_task_fill_logic sys pid loc now_us).1.start_weight_lbs
      = sys.start_weight_lbs ∧
    (control_task_fill_logic sys pid loc now_us).1.actual_dispensed_lbs
      = sys.actual_dispensed_lbs := by
  unfold control_task_fill_logic
  dsimp only
  repeat' split
  all_goals first
    | exact ⟨rfl, rfl, rfl⟩
    | exact fill_zone_preserves sys pid loc now_us _ _

/-- A control-task tick either leaves `target_weight_lbs` unchanged or
sets it to `AUTOTUNE_TARGET_WEIGHT` (autotune Init). -/
theorem control_task_tick_target (wsp piv : ℚ) (sys : system_state_t)
    (pid : pid_state_t) (a : autotune_state_t) (pp : ℚ) (loc : fill_logic_locals)
    (now_us : ℕ) :
    (control_task_tick wsp piv sys pid a pp loc now_us).1.target_weight_lbs
      = sys.target_weight_lbs ∨
    (control_task_tick wsp piv sys pid a pp loc now_us).1.target_weight_lbs
      = AUTOTUNE_TARGET_WEIGHT := by
  unfold control_task_tick
  dsimp only
  repeat' split
  all_goals first
    | exact Or.inl rfl
    | exact run_autotune_target wsp piv a pid _ pp now_us _
    | exact Or.inl (fill_logic_preserves _ pid loc now_us).1

/-- C7 counterexample: `POST /set_target {target: 50}` while the mode
is Filling (not Idle) is accepted and mutates `target_lbs` from 100 to
50 — the handler never checks the mode. -/
theorem c7_counterexample_target_mutated_while_filling :
    filling_sys.state ≠ .STATE_IDLE ∧
    filling_sys.target_weight_lbs = 100 ∧
    (api_set_target_handler filling_sys (some 50)).1.target_weight_lbs = 50 ∧
    (api_set_target_handler filling_sys (some 50)).2 = true := by
  refine ⟨by decide, rfl, ?_, ?_⟩ <;>
    norm_num [api_set_target_handler, filling_sys, g_system_state_init]

/-- C7 amended: `target_lbs` starts at 200 and every mutation keeps it
in [10, 250] — the encoder clamps into the range and acts only in Idle,
the web handler accepts exactly the in-range requests (rejections leave
the target unchanged), and the autotune Init step sets it to 50 — but
the web handler and the autotune mutate it in any mode, not only in
Idle. -/
theorem c7_target_range_and_mutators :
    g_system_state_init.target_weight_lbs = 200 ∧
    (∀ (sys : system_state_t) (delta : ℤ), sys.state ≠ .STATE_IDLE →
      display_handle_encoder sys delta = sys) ∧
    (∀ (sys : system_state_t) (delta : ℤ),
      MIN_TARGET_WEIGHT_LBS ≤ sys.target_weight_lbs →
      sys.target_weight_lbs ≤ MAX_TARGET_WEIGHT_LBS →
      MIN_TARGET_WEIGHT_LBS ≤ (display_handle_encoder sys delta).target_weight_lbs ∧
      (display_handle_encoder sys delta).target_weight_lbs ≤ MAX_TARGET_WEIGHT_LBS) ∧
    (∀ (sys : system_state_t) (t : Option ℚ),
      MIN_TARGET_WEIGHT_LBS ≤ sys.target_weight_lbs →
      sys.target_weight_lbs ≤ MAX_TARGET_WEIGHT_LBS →
      MIN_TARGET_WEIGHT_LBS ≤ (api_set_target_handler sys t).1.target_weight_lbs ∧
      (api_set_target_handler sys t).1.target_weight_lbs ≤ MAX_TARGET_WEIGHT_LBS) ∧
    (∀ (sys : system_state_t) (t : ℚ), ¬ (10 ≤ t ∧ t ≤ 250) →
      (api_set_target_handler sys (some t)).1.target_weight_lbs =
        sys.target_weight_lbs ∧
      (api_set_target_handler sys (some t)).2 = false) ∧
    (MIN_TARGET_WEIGHT_LBS ≤ AUTOTUNE_TARGET_WEIGHT ∧
      AUTOTUNE_TARGET_WEIGHT ≤ MAX_TARGET_WEIGHT_LBS) ∧
    (∀ (wsp piv : ℚ) (sys : system_state_t) (pid : pid_state_t)
        (a : autotune_state_t) (pp : ℚ) (loc : fill_logic_locals) (now_us : ℕ),
      (control_task_tick wsp piv sys pid a pp loc now_us).1.target_weight_lbs
        = sys.target_weight_lbs ∨
      (control_task_tick wsp piv sys pid a pp loc now_us).1.target_weight_lbs
        = AUTOTUNE_TARGET_WEIGHT) := by
  refine ⟨rfl, ?_, ?_, ?_, ?_, ?_, ?_⟩
  · intro sys delta h
    unfold display_handle_encoder
    rw [if_neg]
    rintro ⟨_, h2⟩
    exact h h2
  · intro sys delta h1 h2
    unfold display_handle_encoder
    dsimp only
    split_ifs with hc hlo hhi
    · constructor <;> norm_num [MIN_TARGET_WEIGHT_LBS, MAX_TARGET_WEIGHT_LBS]
    · constructor <;> norm_num [MIN_TARGET_WEIGHT_LBS, MAX_TARGET_WEIGHT_LBS]
    · push_neg at hlo hhi
      exact ⟨hlo, hhi⟩
    · exact ⟨h1, h2⟩
  · intro sys t h1 h2
    unfold api_set_target_handler
    cases t with
    | none => exact ⟨h1, h2⟩
    | some v =>
        dsimp only
        split_ifs with hv
        · refine ⟨?_, ?_⟩
          · unfold MIN_TARGET_WEIGHT_LBS
            exact hv.1
          · unfold MAX_TARGET_WEIGHT_LBS
            exact hv.2
        · exact ⟨h1, h2⟩
  · intro sys t h
    unfold api_set_target_handler
    dsimp only
    rw [if_neg h]
    exact ⟨rfl, rfl⟩
  · constructor <;>
      norm_num [MIN_TARGET_WEIGHT_LBS, MAX_TARGET_WEIGHT_LBS, AUTOTUNE_TARGET_WEIGHT]
  · intro wsp piv sys pid a pp loc now_us
    exact control_task_tick_target wsp piv sys pid a pp loc now_us

/-- C7 amended witness: scenario 6 of the spec — `POST /set_target
{target: 300}` is rejected and leaves the valid prior target (200)
unchanged, within [10, 250]. -/
theorem c7_target_range_and_mutators_witness :
    (MIN_TARGET_WEIGHT_LBS ≤ g_system_state_init.target_weight_lbs ∧
     g_system_state_init.target_weight_lbs ≤ MAX_TARGET_WEIGHT_LBS) ∧
    (MIN_TARGET_WEIGHT_LBS ≤
        (api_set_target_handler g_system_state_init (some 300)).1.target_weight_lbs ∧
     (api_set_target_handler g_system_state_init (some 300)).1.target_weight_lbs ≤
        MAX_TARGET_WEIGHT_LBS) ∧
    ¬ ((10 : ℚ) ≤ 300 ∧ (300 : ℚ) ≤ 250) ∧
    ((api_set_target_handler g_system_state_init (some 300)).1.target_weight_lbs =
        g_system_state_init.target_weight_lbs ∧
     (api_set_target_handler g_system_state_init (some 300)).2 = false) :=
  ⟨⟨by norm_num [MIN_TARGET_WEIGHT_LBS, g_system_state_init],
    by norm_num [MAX_TARGET_WEIGHT_LBS, g_system_state_init]⟩,
   c7_target_range_and_mutators.2.2.2.1 g_system_state_init (some 300)
     (by norm_num [MIN_TARGET_WEIGHT_LBS, g_system_state_init])
     (by norm_num [MAX_TARGET_WEIGHT_LBS, g_system_state_init]),
   by norm_num,
   c7_target_range_and_mutators.2.2.2.2.1 g_system_state_init 300 (by norm_num)⟩

/-- A safety-sequencer tick writes only `safety_state` and `error`: it
preserves the top-level mode, the target, the start weight, the
dispensed amount and the current weight. -/
theorem safety_run_checks_preserves (sys : system_state_t) (s : safety_internal_t)
    (now_us : ℕ) (btn : Bool) :
    (safety_run_checks sys s now_us btn).1.state = sys.state ∧
    (safety_run_checks sys s now_us btn).1.target_weight_lbs = sys.target_weight_lbs ∧
    (safety_run_checks sys s now_us btn).1.start_weight_lbs = sys.start_weight_lbs ∧
    (safety_run_checks sys s now_us btn).1.actual_dispensed_lbs =
      sys.actual_dispensed_lbs ∧
    (safety_run_checks sys s now_us btn).1.current_weight_lbs =
      sys.current_weight_lbs := by
  unfold safety_run_checks start_check_stage
  dsimp only
  repeat' split
  all_goals exact ⟨rfl, rfl, rfl, rfl, rfl⟩

/-- C9 counterexample: on the tick completing the safety sequence (the
StartCheck confirmation press, weight 7 lbs on the scale) the mode
becomes Filling but `start_lbs` is not captured — it stays at its prior
value 0 instead of the 7 lbs the claim requires. -/
theorem c9_counterexample_start_weight_not_captured :
    (display_task_step sys9 saf9 2000000 true).1.state = .STATE_FILLING ∧
    (display_task_step sys9 saf9 2000000 true).1.current_weight_lbs = 7 ∧
    (display_task_step sys9 saf9 2000000 true).1.start_weight_lbs = 0 ∧
    (display_task_step sys9 saf9 2000000 true).1.start_weight_lbs ≠
      (display_task_step sys9 saf9 2000000 true).1.current_weight_lbs := by
  have h3 : (display_task_step sys9 saf9 2000000 true).1.start_weight_lbs = 0 := rfl
  have h4 : (display_task_step sys9 saf9 2000000 true).1.current_weight_lbs = 7 := rfl
  refine ⟨rfl, h4, h3, ?_⟩
  rw [h3, h4]
  norm_num

/-- C9 amended: on the tick where the safety sequencer reports all four
stages confirmed (SafetyCheck → Filling), the mode becomes Filling and
`fill_start_time_ms` is captured as the time of that moment, but
`start_lbs` is never written — it keeps its prior value (the weight is
left untouched as well). -/
theorem c9_safety_complete_transition (sys : system_state_t) (s : safety_internal_t)
    (now_us : ℕ) (btn : Bool)
    (h1 : sys.state = .STATE_SAFETY_CHECK)
    (h2 : (safety_run_checks sys s now_us btn).2.2 = .ESP_OK) :
    (display_task_step sys s now_us btn).1.state = .STATE_FILLING ∧
    (display_task_step sys s now_us btn).1.fill_start_time_ms = now_us / 1000 ∧
    (display_task_step sys s now_us btn).1.start_weight_lbs = sys.start_weight_lbs ∧
    (display_task_step sys s now_us btn).1.current_weight_lbs =
      sys.current_weight_lbs ∧
    (display_task_step sys s now_us btn).2.2 = some .fill_start := by
  unfold display_task_step
  rw [if_pos h1]
  dsimp only
  rw [h2]
  exact ⟨rfl, rfl, (safety_run_checks_preserves sys s now_us btn).2.2.1,
         (safety_run_checks_preserves sys s now_us btn).2.2.2.2, rfl⟩

/-- C9 amended witness: the concrete StartCheck confirmation tick
satisfies both hypotheses and the conclusion. -/
theorem c9_safety_complete_transition_witness :
    sys9.state = .STATE_SAFETY_CHECK ∧
    (safety_run_checks sys9 saf9 2000000 true).2.2 = .ESP_OK ∧
    ((display_task_step sys9 saf9 2000000 true).1.state = .STATE_FILLING ∧
     (display_task_step sys9 saf9 2000000 true).1.fill_start_time_ms = 2000000 / 1000 ∧
     (display_task_step sys9 saf9 2000000 true).1.start_weight_lbs =
       sys9.start_weight_lbs ∧
     (display_task_step sys9 saf9 2000000 true).1.current_weight_lbs =
       sys9.current_weight_lbs ∧
     (display_task_step sys9 saf9 2000000 true).2.2 = some .fill_start) :=
  ⟨rfl, rfl, c9_safety_complete_transition sys9 saf9 2000000 true rfl rfl⟩

/-- A display-task safety iteration never writes `start_weight_lbs` or
`actual_dispensed_lbs`. -/
theorem display_task_step_preserves (sys : system_state_t) (s : safety_internal_t)
    (now_us : ℕ) (btn : Bool) :
    (display_task_step sys s now_us btn).1.start_weight_lbs = sys.start_weight_lbs ∧
    (display_task_step sys s now_us btn).1.actual_dispensed_lbs =
      sys.actual_dispensed_lbs := by
  unfold display_task_step
  dsimp only
  repeat' split
  all_goals first
    | exact ⟨rfl, rfl⟩
    | exact ⟨(safety_run_checks_preserves sys s now_us btn).2.2.1,
             (safety_run_checks_preserves sys s now_us btn).2.2.2.1⟩

/-- A control-task tick never writes `start_weight_lbs` or
`actual_dispensed_lbs`. -/
theorem control_task_tick_preserves (wsp piv : ℚ) (sys : system_state_t)
    (pid : pid_state_t) (a : autotune_state_t) (pp : ℚ) (loc : fill_logic_locals)
    (now_us : ℕ) :
    (control_task_tick wsp piv sys pid a pp loc now_us).1.start_weight_lbs
      = sys.start_weight_lbs ∧
    (control_task_tick wsp piv sys pid a pp loc now_us).1.actual_dispensed_lbs
      = sys.actual_dispensed_lbs := by
  unfold control_task_tick
  dsimp only
  repeat' split
  all_goals first
    | exact ⟨rfl, rfl⟩
    | exact run_autotune_preserves wsp piv a pid _ pp now_us _
    | exact ⟨(fill_logic_preserves _ pid loc now_us).2.1,
             (fill_logic_preserves _ pid loc now_us).2.2⟩

/-- C10: the fill-completion commit (progress ≥ 100 %) moves the mode to
Completed, increments `fill_number` and `fills_today` by one, adds the
full gross scale reading `current_lbs` — not the net
`current_lbs - start_lbs` — to `total_lbs_today`, commands 0 %, and
publishes the same gross weight as `actual_weight_lbs`; moreover no
modelled operation ever writes `start_weight_lbs` or
`actual_dispensed_lbs`. -/
theorem c10_completion_commit_gross_weight :
    (∀ (sys : system_state_t) (pid : pid_state_t) (loc : fill_logic_locals)
        (now_us : ℕ),
      ZONE_FINE_END ≤ sys.current_weight_lbs / sys.target_weight_lbs * 100 →
      (control_task_fill_logic sys pid loc now_us).1.state = .STATE_COMPLETED ∧
      (control_task_fill_logic sys pid loc now_us).1.fill_number =
        sys.fill_number + 1 ∧
      (control_task_fill_logic sys pid loc now_us).1.fills_today =
        sys.fills_today + 1 ∧
      (control_task_fill_logic sys pid loc now_us).1.total_lbs_today =
        sys.total_lbs_today + sys.current_weight_lbs ∧
      (control_task_fill_logic sys pid loc now_us).2.1.output_percent = 0 ∧
      (control_task_fill_logic sys pid loc now_us).2.2.2 =
        some { fill_number := sys.fill_number + 1,
               target_weight_lbs := sys.target_weight_lbs,
               actual_weight_lbs := sys.current_weight_lbs,
               fill_time_ms := sys.fill_elapsed_ms,
               error_lbs := sys.current_weight_lbs - sys.target_weight_lbs }) ∧
    (∀ (wsp piv : ℚ) (sys : system_state_t) (pid : pid_state_t)
        (a : autotune_state_t) (pp : ℚ) (loc : fill_logic_locals) (now_us : ℕ),
      (control_task_tick wsp piv sys pid a pp loc now_us).1.start_weight_lbs
        = sys.start_weight_lbs ∧
      (control_task_tick wsp piv sys pid a pp loc now_us).1.actual_dispensed_lbs
        = sys.actual_dispensed_lbs) ∧
    (∀ (sys : system_state_t) (s : safety_internal_t) (now_us : ℕ) (btn : Bool),
      (display_task_step sys s now_us btn).1.start_weight_lbs
        = sys.start_weight_lbs ∧
      (display_task_step sys s now_us btn).1.actual_dispensed_lbs
        = sys.actual_dispensed_lbs) ∧
    (∀ (sys : system_state_t) (delta : ℤ),
      (display_handle_encoder sys delta).start_weight_lbs = sys.start_weight_lbs ∧
      (display_handle_encoder sys delta).actual_dispensed_lbs =
        sys.actual_dispensed_lbs) ∧
    (∀ sys : system_state_t,
      (api_start_fill_handler sys).1.start_weight_lbs = sys.start_weight_lbs ∧
      (api_start_fill_handler sys).1.actual_dispensed_lbs =
        sys.actual_dispensed_lbs) ∧
    (∀ sys : system_state_t,
      (api_stop_fill_handler sys).1.start_weight_lbs = sys.start_weight_lbs ∧
      (api_stop_fill_handler sys).1.actual_dispensed_lbs =
        sys.actual_dispensed_lbs) ∧
    (∀ (sys : system_state_t) (t : Option ℚ),
      (api_set_target_handler sys t).1.start_weight_lbs = sys.start_weight_lbs ∧
      (api_set_target_handler sys t).1.actual_dispensed_lbs =
        sys.actual_dispensed_lbs) ∧
    (∀ (sys : system_state_t) (reading : Option ℚ),
      (scale_task_step sys reading).start_weight_lbs = sys.start_weight_lbs ∧
      (scale_task_step sys reading).actual_dispensed_lbs =
        sys.actual_dispensed_lbs) ∧
    (∀ (center : ℚ) (pid : pid_state_t) (sys : system_state_t) (now_us : ℕ),
      (pressure_controller_start_autotune center pid sys now_us).2.2.start_weight_lbs
        = sys.start_weight_lbs ∧
      (pressure_controller_start_autotune center pid sys now_us).2.2.actual_dispensed_lbs
        = sys.actual_dispensed_lbs) ∧
    (∀ (a : autotune_state_t) (pid : pid_state_t) (sys : system_state_t),
      (pressure_controller_cancel_autotune a pid sys).2.2.start_weight_lbs
        = sys.start_weight_lbs ∧
      (pressure_controller_cancel_autotune a pid sys).2.2.actual_dispensed_lbs
        = sys.actual_dispensed_lbs) := by
  refine ⟨?_, control_task_tick_preserves, display_task_step_preserves,
          ?_, ?_, ?_, ?_, ?_, fun _ _ _ _ => ⟨rfl, rfl⟩, fun _ _ _ => ⟨rfl, rfl⟩⟩
  · intro sys pid loc now_us h
    rw [ZONE_FINE_END] at h
    have h60 : ¬ sys.current_weight_lbs / sys.target_weight_lbs * 100 < ZONE_FAST_END :=
      not_lt.mpr (le_trans (by rw [ZONE_FAST_END]; norm_num) h)
    have h85 : ¬ sys.current_weight_lbs / sys.target_weight_lbs * 100 <
        ZONE_MODERATE_END :=
      not_lt.mpr (le_trans (by rw [ZONE_MODERATE_END]; norm_num) h)
    have h975 : ¬ sys.current_weight_lbs / sys.target_weight_lbs * 100 <
        ZONE_SLOW_END :=
      not_lt.mpr (le_trans (by rw [ZONE_SLOW_END]; norm_num) h)
    have h100 : ¬ sys.current_weight_lbs / sys.target_weight_lbs * 100 <
        ZONE_FINE_END :=
      not_lt.mpr (by rw [ZONE_FINE_END]; exact h)
    unfold control_task_fill_logic
    dsimp only
    rw [if_neg h60, if_neg h85, if_neg h975, if_neg h100]
    exact ⟨rfl, rfl, rfl, rfl, rfl, rfl⟩
  · intro sys delta
    unfold display_handle_encoder
    dsimp only
    repeat' split
    all_goals exact ⟨rfl, rfl⟩
  · intro sys
    unfold api_start_fill_handler
    split <;> exact ⟨rfl, rfl⟩
  · intro sys
    unfold api_stop_fill_handler
    split <;> exact ⟨rfl, rfl⟩
  · intro sys t
    unfold api_set_target_handler
    cases t with
    | none => exact ⟨rfl, rfl⟩
    | some v =>
        dsimp only
        split <;> exact ⟨rfl, rfl⟩
  · intro sys reading
    cases reading <;> exact ⟨rfl, rfl⟩

/-- C10 witness: a fill reaching exactly 100 % (target 100 lbs, weight
100 lbs, counters 41/2, 350 lbs so far) commits the gross weight and
publishes it. -/
theorem c10_completion_commit_gross_weight_witness :
    ZONE_FINE_END ≤ sys10.current_weight_lbs / sys10.target_weight_lbs * 100 ∧
    ((control_task_fill_logic sys10 pid0 loc0 5000000).1.state = .STATE_COMPLETED ∧
     (control_task_fill_logic sys10 pid0 loc0 5000000).1.fill_number =
       sys10.fill_number + 1 ∧
     (control_task_fill_logic sys10 pid0 loc0 5000000).1.fills_today =
       sys10.fills_today + 1 ∧
     (control_task_fill_logic sys10 pid0 loc0 5000000).1.total_lbs_today =
       sys10.total_lbs_today + sys10.current_weight_lbs ∧
     (control_task_fill_logic sys10 pid0 loc0 5000000).2.1.output_percent = 0 ∧
     (control_task_fill_logic sys10 pid0 loc0 5000000).2.2.2 =
       some { fill_number := sys10.fill_number + 1,
              target_weight_lbs := sys10.target_weight_lbs,
              actual_weight_lbs := sys10.current_weight_lbs,
              fill_time_ms := sys10.fill_elapsed_ms,
              error_lbs := sys10.current_weight_lbs - sys10.target_weight_lbs }) :=
  ⟨by norm_num [ZONE_FINE_END, sys10, g_system_state_init],
   c10_completion_commit_gross_weight.1 sys10 pid0 loc0 5000000
     (by norm_num [ZONE_FINE_END, sys10, g_system_state_init])⟩

end BDO
